import Mathlib

/-!
Verification of the SKU derivation core of the Blenko SKU generator userscript
(src/blenko-sku-generator.user.js). The SKU pipeline — SHA-256 of the trimmed
title's UTF-8 bytes, byte-by-byte sampling over the 36-symbol alphabet, the
textual O-to-0 substitution, and dash formatting — is embedded below together
with the history cap of saveToHistory. Bytes and 32-bit words are `Nat` with
explicit masking.
-/

namespace Blenko

/-! SHA-256 primitive, modelling the platform digest `crypto.subtle.digest('SHA-256', data)`
called by generateSKU (line 81), per FIPS 180-4. -/

def w32 : Nat := 4294967296

def add32 (a b : Nat) : Nat := (a + b) % w32

def rotr32 (n x : Nat) : Nat := ((x % w32) >>> n) ||| (((x % w32) <<< (32 - n)) % w32)

def not32 (x : Nat) : Nat := (x % w32) ^^^ 4294967295

def chF (x y z : Nat) : Nat := (x &&& y) ^^^ (not32 x &&& z)

def majF (x y z : Nat) : Nat := (x &&& y) ^^^ (x &&& z) ^^^ (y &&& z)

def bigSigma0 (x : Nat) : Nat := rotr32 2 x ^^^ rotr32 13 x ^^^ rotr32 22 x

def bigSigma1 (x : Nat) : Nat := rotr32 6 x ^^^ rotr32 11 x ^^^ rotr32 25 x

def smallSigma0 (x : Nat) : Nat := rotr32 7 x ^^^ rotr32 18 x ^^^ ((x % w32) >>> 3)

def smallSigma1 (x : Nat) : Nat := rotr32 17 x ^^^ rotr32 19 x ^^^ ((x % w32) >>> 10)

def sha256K : List Nat :=
  [1116352408, 1899447441, 3049323471, 3921009573, 961987163,
   1508970993, 2453635748, 2870763221, 3624381080, 310598401,
   607225278, 1426881987, 1925078388, 2162078206, 2614888103,
   3248222580, 3835390401, 4022224774, 264347078, 604807628,
   770255983, 1249150122, 1555081692, 1996064986, 2554220882,
   2821834349, 2952996808, 3210313671, 3336571891, 3584528711,
   113926993, 338241895, 666307205, 773529912, 1294757372,
   1396182291, 1695183700, 1986661051, 2177026350, 2456956037,
   2730485921, 2820302411, 3259730800, 3345764771, 3516065817,
   3600352804, 4094571909, 275423344, 430227734, 506948616,
   659060556, 883997877, 958139571, 1322822218, 1537002063,
   1747873779, 1955562222, 2024104815, 2227730452, 2361852424,
   2428436474, 2756734187, 3204031479, 3329325298]

structure Hash8 where
  a : Nat
  b : Nat
  c : Nat
  d : Nat
  e : Nat
  f : Nat
  g : Nat
  h : Nat
deriving DecidableEq

def initH : Hash8 :=
  ⟨1779033703, 3144134277, 1013904242, 2773480762,
   1359893119, 2600822924, 528734635, 1541459225⟩

def wordOfBytes (b0 b1 b2 b3 : Nat) : Nat :=
  ((b0 % 256) <<< 24) + ((b1 % 256) <<< 16) + ((b2 % 256) <<< 8) + (b3 % 256)

def blockWords : List Nat → List Nat
  | b0 :: b1 :: b2 :: b3 :: rest => wordOfBytes b0 b1 b2 b3 :: blockWords rest
  | _ => []

def scheduleStep (ws : List Nat) : List Nat :=
  let n := ws.length
  ws ++ [add32 (add32 (smallSigma1 (ws.getD (n - 2) 0)) (ws.getD (n - 7) 0))
               (add32 (smallSigma0 (ws.getD (n - 15) 0)) (ws.getD (n - 16) 0))]

def extendSchedule : Nat → List Nat → List Nat
  | 0, ws => ws
  | k + 1, ws => extendSchedule k (scheduleStep ws)

def sha256Round (st : Hash8) (kc : Nat) (w : Nat) : Hash8 :=
  let t1 := add32 st.h (add32 (bigSigma1 st.e) (add32 (chF st.e st.f st.g) (add32 kc w)))
  let t2 := add32 (bigSigma0 st.a) (majF st.a st.b st.c)
  ⟨add32 t1 t2, st.a, st.b, st.c, add32 st.d t1, st.e, st.f, st.g⟩

def compressBlock (H : Hash8) (block : List Nat) : Hash8 :=
  let ws := extendSchedule 48 (blockWords block)
  let st := (sha256K.zip ws).foldl (fun st p => sha256Round st p.1 p.2) H
  ⟨add32 H.a st.a, add32 H.b st.b, add32 H.c st.c, add32 H.d st.d,
   add32 H.e st.e, add32 H.f st.f, add32 H.g st.g, add32 H.h st.h⟩

def lenBytes (n : Nat) : List Nat :=
  [(n >>> 56) % 256, (n >>> 48) % 256, (n >>> 40) % 256, (n >>> 32) % 256,
   (n >>> 24) % 256, (n >>> 16) % 256, (n >>> 8) % 256, n % 256]

def padMessage (m : List Nat) : List Nat :=
  m ++ 128 :: List.replicate ((119 - m.length % 64) % 64) 0 ++ lenBytes (8 * m.length)

def toBlocksN : Nat → List Nat → List (List Nat)
  | 0, _ => []
  | n + 1, l => l.take 64 :: toBlocksN n (l.drop 64)

def toBlocks (l : List Nat) : List (List Nat) := toBlocksN (l.length / 64) l

def wordBytes (w : Nat) : List Nat :=
  [(w >>> 24) % 256, (w >>> 16) % 256, (w >>> 8) % 256, w % 256]

def sha256 (m : List Nat) : List Nat :=
  let H := (toBlocks (padMessage m)).foldl compressBlock initH
  wordBytes H.a ++ wordBytes H.b ++ wordBytes H.c ++ wordBytes H.d ++
  wordBytes H.e ++ wordBytes H.f ++ wordBytes H.g ++ wordBytes H.h

/-! UTF-8 byte encoding of the title, modelling `new TextEncoder().encode(productTitle)`
(lines 79-80). Lean characters are Unicode scalar values, so the four standard
ranges cover every input. -/

def utf8EncodeChar (c : Char) : List Nat :=
  let n := c.toNat
  if n < 0x80 then [n]
  else if n < 0x800 then [0xC0 + n / 0x40, 0x80 + n % 0x40]
  else if n < 0x10000 then [0xE0 + n / 0x1000, 0x80 + (n / 0x40) % 0x40, 0x80 + n % 0x40]
  else [0xF0 + n / 0x40000, 0x80 + (n / 0x1000) % 0x40, 0x80 + (n / 0x40) % 0x40, 0x80 + n % 0x40]

def utf8Encode (s : List Char) : List Nat := s.flatMap utf8EncodeChar

/-! The SKU generator core, embedded from src/blenko-sku-generator.user.js. -/

def CHARSET : List Char := "ABCDEFGHIJKLMNOPQRSTUVWXYZ0123456789".data

def CHARSET_LENGTH : Nat := CHARSET.length

def SKU_LENGTH : Nat := 12

/-- ECMAScript whitespace as recognized by String.prototype.trim (line 73):
WhiteSpace (TAB VT FF SP NBSP ZWNBSP and the Unicode Zs category) plus
LineTerminator (LF CR LS PS). -/
def jsWhitespace (c : Char) : Bool :=
  let n := c.toNat
  n = 0x9 || n = 0xA || n = 0xB || n = 0xC || n = 0xD || n = 0x20 || n = 0xA0 ||
  n = 0x1680 || (0x2000 ≤ n && n ≤ 0x200A) || n = 0x2028 || n = 0x2029 ||
  n = 0x202F || n = 0x205F || n = 0x3000 || n = 0xFEFF

/-- String.prototype.trim: drop leading and trailing whitespace. -/
def jsTrim (s : List Char) : List Char :=
  ((s.dropWhile jsWhitespace).reverse.dropWhile jsWhitespace).reverse

/-- The byte-to-character sampling loop of generateSKU (lines 88-94): iterate over
the digest bytes while fewer than SKU_LENGTH characters have been emitted, emitting
CHARSET[floor(byte / CHARSET_LENGTH) % CHARSET_LENGTH] and then, if an output slot
remains, CHARSET[byte % CHARSET_LENGTH]. -/
def sampleChars : List Nat → Nat → List Char
  | [], _ => []
  | byte :: rest, resultIndex =>
    if resultIndex < SKU_LENGTH then
      let c1 := CHARSET.getD ((byte / CHARSET_LENGTH) % CHARSET_LENGTH) ' '
      if resultIndex + 1 < SKU_LENGTH then
        c1 :: CHARSET.getD (byte % CHARSET_LENGTH) ' ' :: sampleChars rest (resultIndex + 2)
      else [c1]
    else []

/-- The textual O-to-0 substitution `result.join('').replace(/O/g, '0')` (line 97). -/
def replaceO (s : List Char) : List Char :=
  s.map (fun c => if c = 'O' then '0' else c)

/-- formatSKU (lines 101-104): insert a dash after the 4th and 8th characters of a
12-character string; any other length is returned unchanged. -/
def formatSKU (sku : List Char) : List Char :=
  if sku.length ≠ SKU_LENGTH then sku
  else sku.take 4 ++ '-' :: ((sku.drop 4).take 4 ++ '-' :: (sku.drop 8).take 4)

/-- A JavaScript argument as generateSKU receives it: a string, or any non-string
value (null, undefined, number, object, ...), all of which fail the
`!productTitle || typeof productTitle !== 'string'` guard (line 69) identically. -/
inductive JSInput where
  | str (s : List Char)
  | nonString
deriving DecidableEq

/-- generateSKU (lines 68-99). The digest step models `crypto.subtle.digest` with
the FIPS 180-4 function sha256 above; the empty-string guard models the falsiness
of `''` in `!productTitle`. -/
def generateSKU : JSInput → Option (List Char)
  | .str s =>
    if s = [] then none
    else
      let t := jsTrim s
      if t.length = 0 then none
      else
        let hashArray := sha256 (utf8Encode t)
        let result := sampleChars hashArray 0
        some (formatSKU (replaceO result))
  | .nonString => none

/-- One history record of saveToHistory (lines 406-414). The timestamp is the
`new Date().toISOString()` value, passed in as a parameter. -/
structure HistoryEntry where
  title : List Char
  sku : List Char
  timestamp : List Char
deriving DecidableEq

/-- saveToHistory (lines 406-414) acting on the stored history list: unshift the
new entry, then persist slice(0, 100). -/
def saveToHistory (e : HistoryEntry) (history : List HistoryEntry) : List HistoryEntry :=
  (e :: history).take 100

/-! Specification-side vocabulary used by the claim statements. -/

/-- The character emitted first for a digest byte: the alphabet symbol at index
floor(byte / 36) mod 36. -/
def hiChar (b : Nat) : Char := CHARSET.getD (b / 36 % 36) ' '

/-- The character emitted second for a digest byte: the alphabet symbol at index
byte mod 36. -/
def loChar (b : Nat) : Char := CHARSET.getD (b % 36) ' '

/-- The character range [A-NP-Z0-9] that the spec asserts for formatted SKUs. -/
def skuOutputChars : List Char := "ABCDEFGHIJKLMNPQRSTUVWXYZ0123456789".data

/-- Two sampled characters that print identically after the O-to-0 substitution:
equal, or the pair letter-O / digit-0 in either order. -/
def equivO0 (c1 c2 : Char) : Prop :=
  c1 = c2 ∨ (c1 = 'O' ∧ c2 = '0') ∨ (c1 = '0' ∧ c2 = 'O')

/-- The per-character effect of the O-to-0 substitution. -/
def subO (c : Char) : Char := if c = 'O' then '0' else c

/-! General helper lemmas. -/

lemma head?_dropWhile_false {α : Type} (p : α → Bool) (l : List α) :
    ∀ x, (l.dropWhile p).head? = some x → p x = false := by
  induction l with
  | nil => intro x hx; simp [List.dropWhile] at hx
  | cons a t ih =>
    intro x hx
    rw [List.dropWhile_cons] at hx
    by_cases hpa : p a
    · rw [if_pos hpa] at hx
      exact ih x hx
    · rw [if_neg hpa] at hx
      simp at hx
      subst hx
      simpa using hpa

lemma dropWhile_eq_self_of_head {α : Type} (p : α → Bool) (l : List α)
    (h : ∀ x, l.head? = some x → p x = false) : l.dropWhile p = l := by
  cases l with
  | nil => rfl
  | cons a t =>
    rw [List.dropWhile_cons, if_neg]
    simp [h a rfl]

lemma getLast?_dropWhile_eq {α : Type} (p : α → Bool) (l : List α)
    (h : l.dropWhile p ≠ []) : (l.dropWhile p).getLast? = l.getLast? := by
  obtain ⟨t, ht⟩ : ∃ t, t ++ l.dropWhile p = l := List.dropWhile_suffix p
  conv_rhs => rw [← ht]
  rw [List.getLast?_append]
  obtain ⟨x, hx⟩ : ∃ x, (l.dropWhile p).getLast? = some x := by
    cases hg : (l.dropWhile p).getLast? with
    | none => exact absurd (List.getLast?_eq_none_iff.mp hg) h
    | some x => exact ⟨x, rfl⟩
  simp [hx]

lemma jsTrim_head (s : List Char) :
    ∀ x, (jsTrim s).head? = some x → jsWhitespace x = false := by
  intro x hx
  unfold jsTrim at hx
  rw [List.head?_reverse] at hx
  have hne : (s.dropWhile jsWhitespace).reverse.dropWhile jsWhitespace ≠ [] := by
    intro he
    rw [he] at hx
    simp at hx
  rw [getLast?_dropWhile_eq _ _ hne, List.getLast?_reverse] at hx
  exact head?_dropWhile_false _ _ x hx

lemma jsTrim_idem (s : List Char) : jsTrim (jsTrim s) = jsTrim s := by
  have h1 : (jsTrim s).dropWhile jsWhitespace = jsTrim s :=
    dropWhile_eq_self_of_head _ _ (jsTrim_head s)
  show (((jsTrim s).dropWhile jsWhitespace).reverse.dropWhile jsWhitespace).reverse = jsTrim s
  rw [h1]
  show ((((s.dropWhile jsWhitespace).reverse.dropWhile jsWhitespace).reverse).reverse.dropWhile
    jsWhitespace).reverse = jsTrim s
  rw [List.reverse_reverse]
  rw [dropWhile_eq_self_of_head _ _ (fun x hx => head?_dropWhile_false _ _ x hx)]
  rfl

lemma sha256_length (m : List Nat) : (sha256 m).length = 32 := by
  simp [sha256, wordBytes]

lemma sha256_byte_lt (m : List Nat) : ∀ b ∈ sha256 m, b < 256 := by
  intro b hb
  simp [sha256, wordBytes] at hb
  rcases hb with h|h|h|h|h|h|h|h|h|h|h|h|h|h|h|h|h|h|h|h|h|h|h|h|h|h|h|h|h|h|h|h <;> omega

lemma exists_six_bytes (d : List Nat) (h : 6 ≤ d.length) :
    ∃ b0 b1 b2 b3 b4 b5 rest, d = b0 :: b1 :: b2 :: b3 :: b4 :: b5 :: rest := by
  rcases d with _ | ⟨b0, d⟩; · simp at h
  rcases d with _ | ⟨b1, d⟩; · simp at h
  rcases d with _ | ⟨b2, d⟩; · simp at h
  rcases d with _ | ⟨b3, d⟩; · simp at h
  rcases d with _ | ⟨b4, d⟩; · simp at h
  rcases d with _ | ⟨b5, d⟩; · simp at h
  exact ⟨b0, b1, b2, b3, b4, b5, d, rfl⟩

lemma sampleChars_stop (l : List Nat) (i : Nat) (h : 12 ≤ i) : sampleChars l i = [] := by
  cases l with
  | nil => rfl
  | cons a t =>
    have hn : ¬ i < SKU_LENGTH := by simp only [SKU_LENGTH]; omega
    simp only [sampleChars, if_neg hn]

lemma sampleChars_six (b0 b1 b2 b3 b4 b5 : Nat) (rest : List Nat) :
    sampleChars (b0 :: b1 :: b2 :: b3 :: b4 :: b5 :: rest) 0 =
      [hiChar b0, loChar b0, hiChar b1, loChar b1, hiChar b2, loChar b2,
       hiChar b3, loChar b3, hiChar b4, loChar b4, hiChar b5, loChar b5] := by
  have h12 : sampleChars rest 12 = [] := sampleChars_stop rest 12 (le_refl 12)
  show hiChar b0 :: loChar b0 :: hiChar b1 :: loChar b1 :: hiChar b2 :: loChar b2 ::
    hiChar b3 :: loChar b3 :: hiChar b4 :: loChar b4 :: hiChar b5 :: loChar b5 ::
    sampleChars rest 12 = _
  rw [h12]

lemma generateSKU_str_eq (s : List Char) (h : jsTrim s ≠ []) :
    generateSKU (.str s) =
      some (formatSKU (replaceO (sampleChars (sha256 (utf8Encode (jsTrim s))) 0))) := by
  have hs : s ≠ [] := by
    intro he
    subst he
    exact h rfl
  have hl : ¬ (jsTrim s).length = 0 := by
    simpa [List.length_eq_zero] using h
  simp [generateSKU, hs, hl]

lemma charset_getD_mem : ∀ i, i < 36 → CHARSET.getD i ' ' ∈ CHARSET := by decide

lemma subO_mem_skuOutput : ∀ c ∈ CHARSET, subO c ∈ skuOutputChars := by decide

lemma subO_hi_mem (b : Nat) : subO (hiChar b) ∈ skuOutputChars :=
  subO_mem_skuOutput _ (charset_getD_mem _ (Nat.mod_lt _ (by norm_num)))

lemma subO_lo_mem (b : Nat) : subO (loChar b) ∈ skuOutputChars :=
  subO_mem_skuOutput _ (charset_getD_mem _ (Nat.mod_lt _ (by norm_num)))

lemma subO_hi_range (b : Nat) (h : b < 256) : subO (hiChar b) ∈ "ABCDEFGH".data := by
  have h8 : b / 36 < 8 := by omega
  have hm : b / 36 % 36 = b / 36 := Nat.mod_eq_of_lt (by omega)
  have hmem : hiChar b ∈ "ABCDEFGH".data := by
    unfold hiChar
    rw [hm]
    exact (by decide : ∀ i, i < 8 → CHARSET.getD i ' ' ∈ "ABCDEFGH".data) _ h8
  exact (by decide : ∀ c ∈ "ABCDEFGH".data, subO c ∈ "ABCDEFGH".data) _ hmem

/-- The fully evaluated shape of a generated SKU: for a title whose trim is non-empty,
generateSKU returns the 14-character list built from the first six digest bytes. -/
lemma generateSKU_explicit (s : List Char) (h : jsTrim s ≠ []) :
    ∃ b0 b1 b2 b3 b4 b5 rest,
      sha256 (utf8Encode (jsTrim s)) = b0 :: b1 :: b2 :: b3 :: b4 :: b5 :: rest ∧
      b0 < 256 ∧ b1 < 256 ∧ b2 < 256 ∧ b3 < 256 ∧ b4 < 256 ∧ b5 < 256 ∧
      generateSKU (.str s) =
        some [subO (hiChar b0), subO (loChar b0), subO (hiChar b1), subO (loChar b1), '-',
              subO (hiChar b2), subO (loChar b2), subO (hiChar b3), subO (loChar b3), '-',
              subO (hiChar b4), subO (loChar b4), subO (hiChar b5), subO (loChar b5)] := by
  obtain ⟨b0, b1, b2, b3, b4, b5, rest, hsha⟩ :=
    exists_six_bytes (sha256 (utf8Encode (jsTrim s))) (by rw [sha256_length]; omega)
  refine ⟨b0, b1, b2, b3, b4, b5, rest, hsha, ?_, ?_, ?_, ?_, ?_, ?_, ?_⟩
  · exact sha256_byte_lt _ b0 (by rw [hsha]; simp)
  · exact sha256_byte_lt _ b1 (by rw [hsha]; simp)
  · exact sha256_byte_lt _ b2 (by rw [hsha]; simp)
  · exact sha256_byte_lt _ b3 (by rw [hsha]; simp)
  · exact sha256_byte_lt _ b4 (by rw [hsha]; simp)
  · exact sha256_byte_lt _ b5 (by rw [hsha]; simp)
  · rw [generateSKU_str_eq s h, hsha, sampleChars_six]
    rfl

lemma replaceO_congr (l1 l2 : List Char) (h : List.Forall₂ equivO0 l1 l2) :
    replaceO l1 = replaceO l2 := by
  induction h with
  | nil => rfl
  | cons hrel _ ih =>
    unfold replaceO at ih ⊢
    simp only [List.map_cons, ih]
    rcases hrel with rfl | ⟨rfl, rfl⟩ | ⟨rfl, rfl⟩ <;> rfl

/-- C1: for every title whose trimmed form is non-empty, generateSKU maps the SHA-256
digest of the trimmed title's UTF-8 bytes to output characters by consuming the digest
byte-by-byte, emitting per byte the alphabet symbol at index floor(byte / 36) mod 36 and
then the symbol at index byte mod 36, stopping at exactly 12 emitted characters, which
consumes only the first 6 of the 32 digest bytes (the `take 6` on the digest). -/
theorem C1_digest_byte_sampling (s : List Char) (h : jsTrim s ≠ []) :
    generateSKU (.str s) =
      some (formatSKU (replaceO
        (((sha256 (utf8Encode (jsTrim s))).take 6).flatMap (fun b => [hiChar b, loChar b])))) ∧
    (((sha256 (utf8Encode (jsTrim s))).take 6).flatMap (fun b => [hiChar b, loChar b])).length = 12 ∧
    (sha256 (utf8Encode (jsTrim s))).length = 32 := by
  obtain ⟨b0, b1, b2, b3, b4, b5, rest, hsha⟩ :=
    exists_six_bytes (sha256 (utf8Encode (jsTrim s))) (by rw [sha256_length]; omega)
  refine ⟨?_, ?_, sha256_length _⟩
  · rw [generateSKU_str_eq s h, hsha, sampleChars_six]
    rfl
  · rw [hsha]
    rfl

theorem C1_witness :
    jsTrim "a".data ≠ [] ∧
    (generateSKU (.str "a".data) =
      some (formatSKU (replaceO
        (((sha256 (utf8Encode (jsTrim "a".data))).take 6).flatMap (fun b => [hiChar b, loChar b])))) ∧
    (((sha256 (utf8Encode (jsTrim "a".data))).take 6).flatMap (fun b => [hiChar b, loChar b])).length = 12 ∧
    (sha256 (utf8Encode (jsTrim "a".data))).length = 32) :=
  ⟨by decide, C1_digest_byte_sampling "a".data (by decide)⟩

/-- C2: for every non-empty trimmed title the result of generateSKU is exactly
14 characters — three 4-character groups separated by two dashes — and every non-dash
character lies in [A-NP-Z0-9]; since the letter O is not in that range, O never appears
in a returned SKU. -/
theorem C2_formatted_shape (s : List Char) (h : jsTrim s ≠ []) :
    'O' ∉ skuOutputChars ∧
    ∃ g1 g2 g3 : List Char,
      generateSKU (.str s) = some (g1 ++ '-' :: (g2 ++ '-' :: g3)) ∧
      g1.length = 4 ∧ g2.length = 4 ∧ g3.length = 4 ∧
      (g1 ++ '-' :: (g2 ++ '-' :: g3)).length = 14 ∧
      ∀ c ∈ g1 ++ g2 ++ g3, c ∈ skuOutputChars := by
  refine ⟨by decide, ?_⟩
  obtain ⟨b0, b1, b2, b3, b4, b5, rest, hsha, h0, h1, h2, h3, h4, h5, hgen⟩ :=
    generateSKU_explicit s h
  refine ⟨[subO (hiChar b0), subO (loChar b0), subO (hiChar b1), subO (loChar b1)],
          [subO (hiChar b2), subO (loChar b2), subO (hiChar b3), subO (loChar b3)],
          [subO (hiChar b4), subO (loChar b4), subO (hiChar b5), subO (loChar b5)],
          by rw [hgen]; rfl, rfl, rfl, rfl, rfl, ?_⟩
  intro c hc
  simp only [List.mem_append, List.mem_cons, List.not_mem_nil, or_false] at hc
  rcases hc with ((rfl|rfl|rfl|rfl)|(rfl|rfl|rfl|rfl))|(rfl|rfl|rfl|rfl)
  · exact subO_hi_mem b0
  · exact subO_lo_mem b0
  · exact subO_hi_mem b1
  · exact subO_lo_mem b1
  · exact subO_hi_mem b2
  · exact subO_lo_mem b2
  · exact subO_hi_mem b3
  · exact subO_lo_mem b3
  · exact subO_hi_mem b4
  · exact subO_lo_mem b4
  · exact subO_hi_mem b5
  · exact subO_lo_mem b5

theorem C2_witness :
    jsTrim "a".data ≠ [] ∧
    ('O' ∉ skuOutputChars ∧
    ∃ g1 g2 g3 : List Char,
      generateSKU (.str "a".data) = some (g1 ++ '-' :: (g2 ++ '-' :: g3)) ∧
      g1.length = 4 ∧ g2.length = 4 ∧ g3.length = 4 ∧
      (g1 ++ '-' :: (g2 ++ '-' :: g3)).length = 14 ∧
      ∀ c ∈ g1 ++ g2 ++ g3, c ∈ skuOutputChars) :=
  ⟨by decide, C2_formatted_shape "a".data (by decide)⟩

/-- C3: generateSKU returns null exactly when the input is not a string or trims to the
empty string; on every string input with non-empty trim it returns a SKU, and no other
failure mode exists. -/
theorem C3_null_iff (j : JSInput) :
    generateSKU j = none ↔ j = JSInput.nonString ∨ ∃ s, j = JSInput.str s ∧ jsTrim s = [] := by
  cases j with
  | nonString => simp [generateSKU]
  | str s =>
    constructor
    · intro hn
      by_cases ht : (jsTrim s).length = 0
      · exact Or.inr ⟨s, rfl, List.length_eq_zero.mp ht⟩
      · rw [generateSKU_str_eq s (fun he => ht (by rw [he]; rfl))] at hn
        exact absurd hn (by simp)
    · intro hr
      rcases hr with hcon | ⟨s', hs', ht⟩
      · exact absurd hcon (by simp)
      · obtain rfl : s = s' := by injection hs'
        by_cases hs0 : s = []
        · simp [generateSKU, hs0]
        · have hl : (jsTrim s).length = 0 := by rw [ht]; rfl
          simp [generateSKU, hs0, hl]

/-- C4: the O-to-0 substitution is applied textually after sampling — the sampling
alphabet CHARSET still contains the letter O — and any two digests whose sampled
character sequences differ only by letter-O versus digit-0 print the same SKU. -/
theorem C4_sample_then_substitute :
    'O' ∈ CHARSET ∧
    ∀ d1 d2 : List Nat,
      List.Forall₂ equivO0 (sampleChars d1 0) (sampleChars d2 0) →
      formatSKU (replaceO (sampleChars d1 0)) = formatSKU (replaceO (sampleChars d2 0)) := by
  refine ⟨by decide, fun d1 d2 hf => ?_⟩
  rw [replaceO_congr _ _ hf]

theorem C4_witness :
    List.Forall₂ equivO0 (sampleChars [14] 0) (sampleChars [26] 0) ∧
    formatSKU (replaceO (sampleChars [14] 0)) = formatSKU (replaceO (sampleChars [26] 0)) := by
  have hf : List.Forall₂ equivO0 (sampleChars [14] 0) (sampleChars [26] 0) := by
    rw [(rfl : sampleChars [14] 0 = ['A', 'O']), (rfl : sampleChars [26] 0 = ['A', '0'])]
    exact .cons (Or.inl rfl) (.cons (Or.inr (Or.inl ⟨rfl, rfl⟩)) .nil)
  exact ⟨hf, C4_sample_then_substitute.2 [14] [26] hf⟩

/-- Trimming is idempotent inside generateSKU, so the generator cannot distinguish a
title from its trimmed form. -/
lemma generateSKU_trim_eq (t : List Char) :
    generateSKU (.str t) = generateSKU (.str (jsTrim t)) := by
  by_cases ht : jsTrim t = []
  · by_cases h0 : t = []
    · subst h0; rfl
    · have hl : (jsTrim t).length = 0 := by rw [ht]; rfl
      rw [ht]
      simp [generateSKU, h0, hl]
  · rw [generateSKU_str_eq t ht,
        generateSKU_str_eq (jsTrim t) (by rw [jsTrim_idem]; exact ht), jsTrim_idem]

/-- C5: generateSKU is invariant under surrounding whitespace: generateSKU(t) equals
generateSKU(trim(t)) for every title, and in particular the titles "  Widget  " and
"Widget" receive the same SKU. -/
theorem C5_whitespace_invariance :
    (∀ t : List Char, generateSKU (.str t) = generateSKU (.str (jsTrim t))) ∧
    generateSKU (.str "  Widget  ".data) = generateSKU (.str "Widget".data) := by
  refine ⟨generateSKU_trim_eq, ?_⟩
  rw [generateSKU_trim_eq "  Widget  ".data,
      (by decide : jsTrim "  Widget  ".data = "Widget".data)]

/-- C6: generateSKU is deterministic and pure — the embedding is a mathematical
function of the input value alone (the SHA-256 digest of the input bytes is itself a
pure function), so equal inputs always produce identical results, with no randomness,
hidden state, or time dependency. -/
theorem C6_pure_function (j1 j2 : JSInput) (h : j1 = j2) :
    generateSKU j1 = generateSKU j2 := by rw [h]

theorem C6_witness :
    JSInput.str "Widget".data = JSInput.str "Widget".data ∧
    generateSKU (JSInput.str "Widget".data) = generateSKU (JSInput.str "Widget".data) :=
  ⟨rfl, C6_pure_function _ _ rfl⟩

/-- C7: formatSKU inserts a dash after the 4th and 8th character of a 12-character
string, returns any other length unchanged, and inside generateSKU the intermediate
result for a non-empty trimmed title always has exactly 12 characters, so the
unformatted branch is unreachable from generateSKU. -/
theorem C7_format_and_reachability :
    (∀ x0 x1 x2 x3 x4 x5 x6 x7 x8 x9 x10 x11 : Char,
      formatSKU [x0, x1, x2, x3, x4, x5, x6, x7, x8, x9, x10, x11] =
        [x0, x1, x2, x3, '-', x4, x5, x6, x7, '-', x8, x9, x10, x11]) ∧
    (∀ sku : List Char, sku.length ≠ 12 → formatSKU sku = sku) ∧
    (∀ s : List Char, jsTrim s ≠ [] →
      (replaceO (sampleChars (sha256 (utf8Encode (jsTrim s))) 0)).length = 12) := by
  refine ⟨fun _ _ _ _ _ _ _ _ _ _ _ _ => rfl, ?_, ?_⟩
  · intro sku hlen
    simp only [formatSKU]
    rw [if_pos]
    simpa only [SKU_LENGTH] using hlen
  · intro s h
    obtain ⟨b0, b1, b2, b3, b4, b5, rest, hsha, _, _, _, _, _, _, _⟩ := generateSKU_explicit s h
    rw [hsha, sampleChars_six]
    rfl

theorem C7_witness :
    (['X'] : List Char).length ≠ 12 ∧ formatSKU ['X'] = ['X'] ∧
    jsTrim "a".data ≠ [] ∧
    (replaceO (sampleChars (sha256 (utf8Encode (jsTrim "a".data))) 0)).length = 12 :=
  ⟨by decide, C7_format_and_reachability.2.1 ['X'] (by decide), by decide,
   C7_format_and_reachability.2.2 "a".data (by decide)⟩

/-- C8: generateSKU is case sensitive: the titles "a" and "A" receive different SKUs,
and their SHA-256 digests already differ within the first 6 consumed bytes. -/
theorem C8_case_sensitivity :
    generateSKU (.str "a".data) ≠ generateSKU (.str "A".data) ∧
    (sha256 (utf8Encode (jsTrim "a".data))).take 6 ≠ (sha256 (utf8Encode (jsTrim "A".data))).take 6 := by
  constructor <;> decide

/-- C9: every saveToHistory call places exactly the one new (title, sku, timestamp)
entry at the front of the stored history, the stored history afterwards has at most
100 entries — exactly min(previous + 1, 100) — and it is a prefix of the new entry
followed by the previous state, i.e. the most recent entries are retained, for every
prior history state. -/
theorem C9_history_cap (e : HistoryEntry) (h : List HistoryEntry) :
    (saveToHistory e h).head? = some e ∧
    (saveToHistory e h).length = min (h.length + 1) 100 ∧
    (saveToHistory e h).length ≤ 100 ∧
    ∃ dropped, saveToHistory e h ++ dropped = e :: h := by
  refine ⟨?_, ?_, ?_, ⟨(e :: h).drop 100, List.take_append_drop _ _⟩⟩
  · rw [saveToHistory, List.head?_take]
    simp
  · simp only [saveToHistory, List.length_take, List.length_cons]
    omega
  · simp only [saveToHistory, List.length_take, List.length_cons]
    omega

/-- C10: in every returned SKU the 1st and 3rd character of each 4-character group
(formatted positions 0, 2, 5, 7, 10, 12 — the characters produced from
floor(byte / 36)) lie in the range A to H, because floor(b / 36) is at most 7 for every
byte b below 256, the mod 36 at that position never changes the index, and the O-to-0
substitution never affects characters in A..H. -/
theorem C10_high_position_range (s : List Char) (h : jsTrim s ≠ []) :
    ∃ out, generateSKU (.str s) = some out ∧ out.length = 14 ∧
      out.getD 0 ' ' ∈ "ABCDEFGH".data ∧ out.getD 2 ' ' ∈ "ABCDEFGH".data ∧
      out.getD 5 ' ' ∈ "ABCDEFGH".data ∧ out.getD 7 ' ' ∈ "ABCDEFGH".data ∧
      out.getD 10 ' ' ∈ "ABCDEFGH".data ∧ out.getD 12 ' ' ∈ "ABCDEFGH".data := by
  obtain ⟨b0, b1, b2, b3, b4, b5, rest, hsha, h0, h1, h2, h3, h4, h5, hgen⟩ :=
    generateSKU_explicit s h
  exact ⟨_, hgen, rfl, subO_hi_range b0 h0, subO_hi_range b1 h1, subO_hi_range b2 h2,
         subO_hi_range b3 h3, subO_hi_range b4 h4, subO_hi_range b5 h5⟩

theorem C10_witness :
    jsTrim "a".data ≠ [] ∧
    (∃ out, generateSKU (.str "a".data) = some out ∧ out.length = 14 ∧
      out.getD 0 ' ' ∈ "ABCDEFGH".data ∧ out.getD 2 ' ' ∈ "ABCDEFGH".data ∧
      out.getD 5 ' ' ∈ "ABCDEFGH".data ∧ out.getD 7 ' ' ∈ "ABCDEFGH".data ∧
      out.getD 10 ' ' ∈ "ABCDEFGH".data ∧ out.getD 12 ' ' ∈ "ABCDEFGH".data) :=
  ⟨by decide, C10_high_position_range "a".data (by decide)⟩

end Blenko
